import Mathlib

/-!
Shallow embedding of the profile-editing workflow of gym-mobile
(src/src/screens/Profile.tsx): the yup validation schema, the
profile-update submit handler and the photo-selection/upload handler,
together with the error classification both handlers perform.

External collaborators (image picker, file introspection, the HTTP
client, the session hook) are modelled as explicit inputs; the
observable effects of one handler invocation (toasts shown, HTTP
request bodies sent, snapshots pushed to the session collaborator,
final busy flag) are collected in a result structure.
-/

namespace GymMobile

/-- The user snapshot handed out by the useAuth session collaborator.
The avatar is an opaque server-assigned reference that may be absent. -/
structure UserProfile where
  id : String
  name : String
  email : String
  avatar : Option String
deriving Repr, DecidableEq

/-- FormDataProps from Profile.tsx.  All five fields arrive from the form
as strings; an untouched field arrives empty. -/
structure FormDataProps where
  name : String
  email : String
  old_password : String
  password : String
  confirm_password : String
deriving Repr, DecidableEq

/-- Fields of profileSchema that can carry a validation error. -/
inductive FieldId
  | name
  | password
  | confirm_password
deriving Repr, DecidableEq

def nameRequiredMsg : String := "Informe o nome."

def passwordMinMsg : String := "A nova senha deve ter pelo menos 6 dígitos."

def confirmMismatchMsg : String := "A confirmação da nova senha não confere."

def confirmRequiredMsg : String := "Informe a confirmação da senha."

/-- The transform used on password and confirm_password in profileSchema:
(value) => (!!value ? value : null).  The empty string (and an absent
value) becomes null, modelled as none. -/
def presence (v : String) : Option String :=
  if v = "" then none else some v

/-- All field errors profileSchema produces on a payload (yup is run by
yupResolver with abortEarly false, so every failing rule reports).
Rules, in schema order:
  name: required, fails on the empty string;
  password: min 6, skipped when the transformed value is null;
  confirm_password: oneOf([ref password]) compares the transformed
    confirm_password with the transformed password and is part of the
    base schema, so it applies whether or not password is present;
    the when-clause adds required only when the transformed password
    is truthy. -/
def profileSchemaErrors (d : FormDataProps) : List (FieldId × String) :=
  let p := presence d.password
  let c := presence d.confirm_password
  (if d.name = "" then [(FieldId.name, nameRequiredMsg)] else []) ++
    (match p with
      | none => []
      | some s => if s.length < 6 then [(FieldId.password, passwordMinMsg)] else []) ++
    (if c = p then [] else [(FieldId.confirm_password, confirmMismatchMsg)]) ++
    (match p with
      | none => []
      | some _ =>
        if c = none then [(FieldId.confirm_password, confirmRequiredMsg)] else [])

/-- handleSubmit only invokes handleProfileUpdate when the schema reports
no error. -/
def validationPasses (d : FormDataProps) : Bool :=
  (profileSchemaErrors d).isEmpty

/-- The errors the schema attaches to the confirm_password field. -/
def confirmPasswordErrors (d : FormDataProps) : List (FieldId × String) :=
  (profileSchemaErrors d).filter (fun e => decide (e.1 = FieldId.confirm_password))

/-- A failure raised by a remote call: either an AppError carrying a
server-provided message, or anything else. -/
inductive RemoteError
  | appError (message : String)
  | unknown
deriving Repr, DecidableEq

/-- Both catch blocks classify the caught error the same way:
error instanceof AppError ? error.message : fallback. -/
def classifyError (fallback : String) : RemoteError → String
  | .appError m => m
  | .unknown => fallback

def profileUpdateFallbackMsg : String :=
  "Não foi possível atualizar os dados. Tente novamente mais tarde."

def photoUploadFallbackMsg : String :=
  "Não foi possível atualizar a foto. Tente novamente mais tarde."

/-- One toast.show call. -/
structure Toast where
  title : String
  placement : String
  bgColor : String
deriving Repr, DecidableEq

def profileUpdatedToast : Toast :=
  { title := "Perfil atualizado com sucesso!", placement := "top", bgColor := "green.500" }

def photoUpdatedToast : Toast :=
  { title := "Foto atualizada!", placement := "top", bgColor := "green.500" }

def errorToast (title : String) : Toast :=
  { title := title, placement := "top", bgColor := "red.500" }

/-- A JSON field value in the serialized request body. -/
inductive JsonVal
  | str (s : String)
  | null
deriving Repr, DecidableEq

def jsonOfPresence : Option String → JsonVal
  | some s => .str s
  | none => .null

/-- The body of api.put(..\x2fusers.., data).  The data object handed to the
submit handler is the value yupResolver returns after schema cast, so
password and confirm_password carry the empty-to-null transform, while
name, email and old_password (unknown to the schema, kept by the object
cast) pass through unchanged.  All five keys are serialized. -/
def putBody (d : FormDataProps) : List (String × JsonVal) :=
  [("name", JsonVal.str d.name),
   ("email", JsonVal.str d.email),
   ("old_password", JsonVal.str d.old_password),
   ("password", jsonOfPresence (presence d.password)),
   ("confirm_password", jsonOfPresence (presence d.confirm_password))]

/-- Observable outcome of one handleProfileUpdate invocation. -/
structure ProfileUpdateRun where
  sessionUser : UserProfile
  sessionUpdates : List UserProfile
  isUpdating : Bool
  toasts : List Toast
  putCalls : List (List (String × JsonVal))
deriving Repr, DecidableEq

/-- handleProfileUpdate (Profile.tsx 153-182).  userUpdated aliases the
session-held user object, so the name assignment mutates the snapshot the
session collaborator holds before api.put is awaited; when the call
throws, updateUserProfile is not invoked but the mutation remains visible
through the session reference.  The finally block clears isUpdating on
every path. -/
def handleProfileUpdate (user : UserProfile) (data : FormDataProps)
    (putResult : Except RemoteError Unit) : ProfileUpdateRun :=
  let userUpdated : UserProfile := { user with name := data.name }
  match putResult with
  | .ok _ =>
      { sessionUser := userUpdated
        sessionUpdates := [userUpdated]
        isUpdating := false
        toasts := [profileUpdatedToast]
        putCalls := [putBody data] }
  | .error e =>
      { sessionUser := userUpdated
        sessionUpdates := []
        isUpdating := false
        toasts := [errorToast (classifyError profileUpdateFallbackMsg e)]
        putCalls := [putBody data] }

/-- Result of ImagePicker.launchImageLibraryAsync: either canceled, or a
first asset with a uri and a type. -/
inductive PickerResult
  | canceled
  | selected (uri : String) (assetType : String)
deriving Repr, DecidableEq

/-- fileExtension: photoSelected.assets[0].uri.split(..).pop(), the last
dot-separated component of the uri. -/
def fileExtension (uri : String) : String :=
  (uri.splitOn ".").getLastD ""

/-- The photoFile object appended to the multipart form under the avatar
key. -/
structure PhotoFile where
  name : String
  uri : String
  mime : String
deriving Repr, DecidableEq

def mkPhotoFile (userName uri assetType : String) : PhotoFile :=
  let ext := fileExtension uri
  { name := (userName ++ "." ++ ext).toLower
    uri := uri
    mime := assetType ++ "/" ++ ext }

/-- The guard photoInfo.size && photoInfo.size / 1024 / 1024 > 5.
The size reported by getInfoAsync may be absent; an absent or zero size
is falsy and the whole guard short-circuits to false.  JavaScript
division is real-valued, modelled over ℚ (exact here: byte counts are
far below 2 to the 53 and division by 1024 only shifts the exponent). -/
def sizeCheckTriggers (size : Option Nat) : Bool :=
  match size with
  | none => false
  | some s => if s = 0 then false else decide ((5 : ℚ) < (s : ℚ) / 1024 / 1024)

def sizeLimitToast : Toast :=
  { title := "Essa Imagem é muito grande. Escolha uma de até 5MB"
    placement := "top", bgColor := "red.500" }

/-- Observable outcome of one handleUserPhotoSelect invocation. -/
structure PhotoSelectRun where
  sessionUser : UserProfile
  sessionUpdates : List UserProfile
  photoIsLoading : Bool
  toasts : List Toast
  patchCalls : List PhotoFile
deriving Repr, DecidableEq

/-- handleUserPhotoSelect (Profile.tsx 79-151).  Inputs: the picker
result, the size reported by FileSystem.getInfoAsync for the selected
uri, and the outcome of api.patch (on success the server-returned
avatar string).  On cancellation the handler returns at once; an empty
asset uri skips the whole branch; an oversize image returns after the
size toast; otherwise the multipart patch call is made and, on success,
the session user (mutated in place with the server avatar) is pushed via
updateUserProfile.  The finally block clears photoIsLoading on every
path. -/
def handleUserPhotoSelect (user : UserProfile) (picker : PickerResult)
    (photoInfoSize : Option Nat) (patchResult : Except RemoteError String) :
    PhotoSelectRun :=
  match picker with
  | .canceled =>
      { sessionUser := user, sessionUpdates := [], photoIsLoading := false
        toasts := [], patchCalls := [] }
  | .selected uri assetType =>
      if uri = "" then
        { sessionUser := user, sessionUpdates := [], photoIsLoading := false
          toasts := [], patchCalls := [] }
      else if sizeCheckTriggers photoInfoSize then
        { sessionUser := user, sessionUpdates := [], photoIsLoading := false
          toasts := [sizeLimitToast], patchCalls := [] }
      else
        let photoFile := mkPhotoFile user.name uri assetType
        match patchResult with
        | .ok avatar =>
            let userUpdated : UserProfile := { user with avatar := some avatar }
            { sessionUser := userUpdated, sessionUpdates := [userUpdated]
              photoIsLoading := false, toasts := [photoUpdatedToast]
              patchCalls := [photoFile] }
        | .error e =>
            { sessionUser := user, sessionUpdates := []
              photoIsLoading := false
              toasts := [errorToast (classifyError photoUploadFallbackMsg e)]
              patchCalls := [photoFile] }

/-- A fixed session user used for concrete evaluations. -/
def aliceUser : UserProfile :=
  { id := "1", name := "Alice", email := "alice@example.com", avatar := none }

lemma presence_of_ne (v : String) (h : v ≠ "") : presence v = some v := by
  simp [presence, h]

lemma sizeCheckTriggers_of_gt (s : Nat) (h : 5 * 1024 * 1024 < s) :
    sizeCheckTriggers (some s) = true := by
  have hs : ¬ s = 0 := by omega
  have hq : (5 : ℚ) < (s : ℚ) / 1024 / 1024 := by
    rw [div_div, lt_div_iff₀ (by norm_num : (0 : ℚ) < 1024 * 1024)]
    have : ((5 * 1024 * 1024 : ℕ) : ℚ) < (s : ℚ) := by exact_mod_cast h
    push_cast at this
    linarith
  simp [sizeCheckTriggers, hs, hq]

lemma sizeCheckTriggers_of_le (s : Nat) (h : s ≤ 5 * 1024 * 1024) :
    sizeCheckTriggers (some s) = false := by
  by_cases hs : s = 0
  · simp [sizeCheckTriggers, hs]
  · have hq : (s : ℚ) / 1024 / 1024 ≤ 5 := by
      rw [div_div, div_le_iff₀ (by norm_num : (0 : ℚ) < 1024 * 1024)]
      have hcast : (s : ℚ) ≤ ((5 * 1024 * 1024 : ℕ) : ℚ) := by exact_mod_cast h
      push_cast at hcast
      linarith
    simp [sizeCheckTriggers, hs, not_lt.mpr hq]

lemma sizeCheckTriggers_none : sizeCheckTriggers none = false := rfl

lemma sizeCheckTriggers_zero : sizeCheckTriggers (some 0) = false := rfl

/-- C1: after a failed profile update the classified fallback message is
shown and the busy flag cleared, but the session-held snapshot is NOT
left unchanged: the handler assigned the payload name into the shared
user object before the remote call, so the session snapshot name is
already the new one. -/
theorem C1_failed_update_mutates_session_name :
    (handleProfileUpdate aliceUser
        { name := "Bob", email := "alice@example.com", old_password := ""
          password := "", confirm_password := "" }
        (Except.error RemoteError.unknown)).sessionUser.name = "Bob" ∧
      "Bob" ≠ "Alice" ∧
      (handleProfileUpdate aliceUser
          { name := "Bob", email := "alice@example.com", old_password := ""
            password := "", confirm_password := "" }
          (Except.error RemoteError.unknown)).toasts
        = [errorToast profileUpdateFallbackMsg] ∧
      (handleProfileUpdate aliceUser
          { name := "Bob", email := "alice@example.com", old_password := ""
            password := "", confirm_password := "" }
          (Except.error RemoteError.unknown)).isUpdating = false := by
  refine ⟨rfl, by decide, rfl, rfl⟩

/-- C2 counterexample: with an empty password and the stray value xyz in
confirm_password, the payload does not pass the confirm_password rule:
the unconditional oneOf rule compares the transformed confirm_password
with the transformed (null) password and reports the mismatch message. -/
theorem C2_counterexample :
    (FieldId.confirm_password, confirmMismatchMsg) ∈
      profileSchemaErrors
        { name := "Alice", email := "alice@example.com", old_password := ""
          password := "", confirm_password := "xyz" } := by
  decide

/-- C2 amended: when password is empty or absent, confirm_password is not
fully unconstrained; the equality rule still applies against the null
password, so the confirm_password rule passes exactly when
confirm_password is itself empty, and a non-empty stray value is
rejected with the mismatch message (the conditional required rule stays
inactive). -/
theorem C2_empty_password_confirm_rule (d : FormDataProps) (h : d.password = "") :
    confirmPasswordErrors d =
      (if d.confirm_password = "" then []
       else [(FieldId.confirm_password, confirmMismatchMsg)]) := by
  have hp : presence d.password = none := by simp [presence, h]
  by_cases hc : d.confirm_password = ""
  · simp [confirmPasswordErrors, profileSchemaErrors, presence, h, hc,
      List.filter_append]
  · have hcp : presence d.confirm_password = some d.confirm_password :=
      presence_of_ne _ hc
    simp [confirmPasswordErrors, profileSchemaErrors, hp, hcp, hc,
      List.filter_append]

theorem C2_empty_password_confirm_rule_witness :
    confirmPasswordErrors
        { name := "Alice", email := "alice@example.com", old_password := ""
          password := "", confirm_password := "xyz" } =
      (if ("xyz" : String) = "" then []
       else [(FieldId.confirm_password, confirmMismatchMsg)]) :=
  C2_empty_password_confirm_rule
    { name := "Alice", email := "alice@example.com", old_password := ""
      password := "", confirm_password := "xyz" } rfl

/-- C3 counterexample: a payload that passes validation is submitted to
api.put whole, and the serialized body carries the email key with the
email value — email is included in the submitted update payload. -/
theorem C3_counterexample :
    validationPasses
        { name := "Alice", email := "alice@example.com", old_password := ""
          password := "", confirm_password := "" } = true ∧
      ("email", JsonVal.str "alice@example.com") ∈
        putBody
          { name := "Alice", email := "alice@example.com", old_password := ""
            password := "", confirm_password := "" } ∧
      (handleProfileUpdate aliceUser
          { name := "Alice", email := "alice@example.com", old_password := ""
            password := "", confirm_password := "" }
          (Except.ok ())).putCalls
        = [putBody
            { name := "Alice", email := "alice@example.com", old_password := ""
              password := "", confirm_password := "" }] := by
  refine ⟨by decide, by decide, rfl⟩

/-- C3 amended: the profile-update workflow submits the whole validated
payload object in a single api.put call; the body contains the name
field and also the email field — email is not stripped from the
submitted payload. -/
theorem C3_submits_full_payload (u : UserProfile) (d : FormDataProps)
    (r : Except RemoteError Unit) :
    (handleProfileUpdate u d r).putCalls = [putBody d] ∧
      ("name", JsonVal.str d.name) ∈ putBody d ∧
      ("email", JsonVal.str d.email) ∈ putBody d := by
  refine ⟨?_, ?_, ?_⟩
  · cases r <;> rfl
  · simp [putBody]
  · simp [putBody]

/-- C4: when the reported size exceeds 5 * 1024 * 1024 bytes, the photo
workflow shows the size-limit toast and returns before the network call:
no patch request is made and the session state is untouched. -/
theorem C4_oversize_aborts_before_upload (u : UserProfile)
    (uri assetType : String) (s : Nat) (patch : Except RemoteError String)
    (huri : uri ≠ "") (hs : 5 * 1024 * 1024 < s) :
    (handleUserPhotoSelect u (PickerResult.selected uri assetType) (some s) patch).patchCalls
        = [] ∧
      (handleUserPhotoSelect u (PickerResult.selected uri assetType) (some s) patch).toasts
        = [sizeLimitToast] ∧
      (handleUserPhotoSelect u (PickerResult.selected uri assetType) (some s) patch).sessionUser
        = u ∧
      (handleUserPhotoSelect u (PickerResult.selected uri assetType) (some s) patch).sessionUpdates
        = [] := by
  have ht := sizeCheckTriggers_of_gt s hs
  refine ⟨?_, ?_, ?_, ?_⟩ <;> simp [handleUserPhotoSelect, huri, ht]

theorem C4_oversize_aborts_before_upload_witness :
    (handleUserPhotoSelect aliceUser (PickerResult.selected "photo.png" "image")
          (some 6291456) (Except.ok "u123.png")).patchCalls = [] ∧
      (handleUserPhotoSelect aliceUser (PickerResult.selected "photo.png" "image")
          (some 6291456) (Except.ok "u123.png")).toasts = [sizeLimitToast] ∧
      (handleUserPhotoSelect aliceUser (PickerResult.selected "photo.png" "image")
          (some 6291456) (Except.ok "u123.png")).sessionUser = aliceUser ∧
      (handleUserPhotoSelect aliceUser (PickerResult.selected "photo.png" "image")
          (some 6291456) (Except.ok "u123.png")).sessionUpdates = [] :=
  C4_oversize_aborts_before_upload aliceUser "photo.png" "image" 6291456
    (Except.ok "u123.png") (by decide) (by norm_num)

/-- C5: on a successful upload whose response carries an avatar string,
the snapshot pushed to the session collaborator has its avatar field
equal exactly to the server-returned value. -/
theorem C5_session_gets_server_avatar (u : UserProfile)
    (uri assetType : String) (size : Option Nat) (avatar : String)
    (huri : uri ≠ "") (hsize : sizeCheckTriggers size = false) :
    (handleUserPhotoSelect u (PickerResult.selected uri assetType) size
          (Except.ok avatar)).sessionUpdates
        = [{ u with avatar := some avatar }] ∧
      (handleUserPhotoSelect u (PickerResult.selected uri assetType) size
          (Except.ok avatar)).sessionUser.avatar = some avatar := by
  refine ⟨?_, ?_⟩ <;> simp [handleUserPhotoSelect, huri, hsize]

theorem C5_session_gets_server_avatar_witness :
    (handleUserPhotoSelect aliceUser (PickerResult.selected "photo.png" "image")
          (some 2097152) (Except.ok "u123.png")).sessionUpdates
        = [{ aliceUser with avatar := some "u123.png" }] ∧
      (handleUserPhotoSelect aliceUser (PickerResult.selected "photo.png" "image")
          (some 2097152) (Except.ok "u123.png")).sessionUser.avatar
        = some "u123.png" :=
  C5_session_gets_server_avatar aliceUser "photo.png" "image" (some 2097152)
    "u123.png" (by decide) (sizeCheckTriggers_of_le 2097152 (by norm_num))

/-- C6: both handlers clear their busy flag on every path — success,
classified failure, unknown failure, cancellation and size abort alike —
because the clearing sits in a finally block. -/
theorem C6_busy_flags_always_cleared (u : UserProfile) (d : FormDataProps)
    (pr : Except RemoteError Unit) (picker : PickerResult)
    (size : Option Nat) (patch : Except RemoteError String) :
    (handleProfileUpdate u d pr).isUpdating = false ∧
      (handleUserPhotoSelect u picker size patch).photoIsLoading = false := by
  constructor
  · cases pr <;> rfl
  · cases picker with
    | canceled => rfl
    | selected uri assetType =>
        by_cases h1 : uri = "" <;>
          cases h2 : sizeCheckTriggers size <;>
            cases patch <;> simp [handleUserPhotoSelect, h1, h2]

/-- C7: when the picker reports cancellation the handler returns at once:
no toast, no patch call, no session push, session snapshot untouched,
busy flag cleared. -/
theorem C7_cancel_has_no_effects (u : UserProfile) (size : Option Nat)
    (patch : Except RemoteError String) :
    handleUserPhotoSelect u PickerResult.canceled size patch =
      { sessionUser := u, sessionUpdates := [], photoIsLoading := false
        toasts := [], patchCalls := [] } :=
  rfl

/-- C8: a present password of length 1 to 5 fails the min-6 rule: the
too-short message is attached to the password field and validation does
not pass. -/
theorem C8_short_password_rejected (d : FormDataProps)
    (h1 : 1 ≤ d.password.length) (h2 : d.password.length ≤ 5) :
    (FieldId.password, passwordMinMsg) ∈ profileSchemaErrors d ∧
      validationPasses d = false := by
  have hne : d.password ≠ "" := by
    intro he
    rw [he] at h1
    exact absurd h1 (by decide)
  have hp : presence d.password = some d.password := presence_of_ne _ hne
  have hlt : d.password.length < 6 := by omega
  have hmem : (FieldId.password, passwordMinMsg) ∈ profileSchemaErrors d := by
    simp [profileSchemaErrors, hp, hlt]
  refine ⟨hmem, ?_⟩
  have hnil : profileSchemaErrors d ≠ [] := by
    intro he
    rw [he] at hmem
    exact absurd hmem (by simp)
  simpa [validationPasses, List.isEmpty_iff] using hnil

theorem C8_short_password_rejected_witness :
    (FieldId.password, passwordMinMsg) ∈
        profileSchemaErrors
          { name := "Alice", email := "alice@example.com", old_password := ""
            password := "abc12", confirm_password := "abc12" } ∧
      validationPasses
          { name := "Alice", email := "alice@example.com", old_password := ""
            password := "abc12", confirm_password := "abc12" } = false :=
  C8_short_password_rejected
    { name := "Alice", email := "alice@example.com", old_password := ""
      password := "abc12", confirm_password := "abc12" }
    (by decide) (by decide)

/-- C9: with a non-empty password and a differing confirm_password, the
mismatch message is attached to the confirm_password field and
validation does not pass. -/
theorem C9_mismatch_rejected (d : FormDataProps)
    (h1 : d.password ≠ "") (h2 : d.confirm_password ≠ d.password) :
    (FieldId.confirm_password, confirmMismatchMsg) ∈ profileSchemaErrors d ∧
      validationPasses d = false := by
  have hp : presence d.password = some d.password := presence_of_ne _ h1
  have hcp : presence d.confirm_password ≠ presence d.password := by
    rw [hp]
    by_cases hc : d.confirm_password = ""
    · simp [presence, hc]
    · rw [presence_of_ne _ hc]
      simpa using h2
  have hmem : (FieldId.confirm_password, confirmMismatchMsg) ∈
      profileSchemaErrors d := by
    simp [profileSchemaErrors, hcp]
  refine ⟨hmem, ?_⟩
  have hnil : profileSchemaErrors d ≠ [] := by
    intro he
    rw [he] at hmem
    exact absurd hmem (by simp)
  simpa [validationPasses, List.isEmpty_iff] using hnil

theorem C9_mismatch_rejected_witness :
    (FieldId.confirm_password, confirmMismatchMsg) ∈
        profileSchemaErrors
          { name := "Alice", email := "alice@example.com", old_password := ""
            password := "secret1", confirm_password := "secret2" } ∧
      validationPasses
          { name := "Alice", email := "alice@example.com", old_password := ""
            password := "secret1", confirm_password := "secret2" } = false :=
  C9_mismatch_rejected
    { name := "Alice", email := "alice@example.com", old_password := ""
      password := "secret1", confirm_password := "secret2" }
    (by decide) (by decide)

/-- C10: when getInfoAsync reports no size (or size zero), the size guard
is falsy and skipped entirely: the workflow goes on to the patch call,
and on a successful call the only toast is the success toast — no
size-limit notice. -/
theorem C10_missing_size_skips_check (u : UserProfile)
    (uri assetType : String) (size : Option Nat)
    (patch : Except RemoteError String) (avatar : String)
    (huri : uri ≠ "") (hsize : size = none ∨ size = some 0) :
    sizeCheckTriggers size = false ∧
      (handleUserPhotoSelect u (PickerResult.selected uri assetType) size patch).patchCalls
        = [mkPhotoFile u.name uri assetType] ∧
      (handleUserPhotoSelect u (PickerResult.selected uri assetType) size
          (Except.ok avatar)).toasts
        = [photoUpdatedToast] := by
  have ht : sizeCheckTriggers size = false := by
    rcases hsize with h | h <;> simp [h, sizeCheckTriggers]
  refine ⟨ht, ?_, ?_⟩
  · cases patch <;> simp [handleUserPhotoSelect, huri, ht]
  · simp [handleUserPhotoSelect, huri, ht]

theorem C10_missing_size_skips_check_witness :
    sizeCheckTriggers none = false ∧
      (handleUserPhotoSelect aliceUser (PickerResult.selected "photo.png" "image")
          none (Except.ok "u123.png")).patchCalls
        = [mkPhotoFile aliceUser.name "photo.png" "image"] ∧
      (handleUserPhotoSelect aliceUser (PickerResult.selected "photo.png" "image")
          none (Except.ok "u123.png")).toasts
        = [photoUpdatedToast] :=
  C10_missing_size_skips_check aliceUser "photo.png" "image" none
    (Except.ok "u123.png") "u123.png" (by decide) (Or.inl rfl)

end GymMobile
